import Mathlib

/-!
Verification model of the K-Frame networking client (`woa/client.py`,
class `SimpleKFrameClient`).

Python dictionaries (`dict` / `OrderedDict` / `defaultdict`) are modelled
as insertion-ordered association lists (`Dict`): assigning to an existing
key updates the value in place, assigning to a fresh key appends at the
end, exactly as in CPython.  Machine text is modelled with Lean `String`
and per-code-point helpers mirroring the Python string methods the client
uses (`find`, `split`, `replace`, `strip`, slicing, `in`).  Exceptions in
the Python source are modelled with `Option`/`Except`: a handler body that
would raise (and be swallowed by its enclosing `try`/`except`) returns the
state unchanged.
-/

namespace KFrame

/-- Insertion-ordered dictionary, as in CPython. -/
abbrev Dict (K V : Type) : Type := List (K × V)

/-- Lookup, first (and in a well-formed dict only) binding of the key. -/
def dictGet {K V : Type} [DecidableEq K] : Dict K V → K → Option V
  | [], _ => none
  | (k, v) :: t, key => if k = key then some v else dictGet t key

/-- Lookup with a default value (Python `d.get(k, default)`). -/
def dictGetD {K V : Type} [DecidableEq K] (d : Dict K V) (k : K) (v0 : V) : V :=
  (dictGet d k).getD v0

/-- Python `k in d`. -/
def dictMem {K V : Type} [DecidableEq K] (d : Dict K V) (k : K) : Bool :=
  (dictGet d k).isSome

/-- Python `d[k] = v`: update in place if present, append otherwise. -/
def dictInsert {K V : Type} [DecidableEq K] : Dict K V → K → V → Dict K V
  | [], key, v => [(key, v)]
  | (k, w) :: t, key, v =>
      if k = key then (k, v) :: t else (k, w) :: dictInsert t key v

/-- Python `d.pop(k, None)`: drop the binding of `k` if present. -/
def dictErase {K V : Type} [DecidableEq K] : Dict K V → K → Dict K V
  | [], _ => []
  | (k, v) :: t, key => if k = key then t else (k, v) :: dictErase t key

/-- Batch assignment `for k, v in es: d[k] = v`. -/
def dictInsertMany {K V : Type} [DecidableEq K] (d : Dict K V) (es : List (K × V)) :
    Dict K V :=
  es.foldl (fun d p => dictInsert d p.1 p.2) d

/-- The keys of a dictionary, in insertion order. -/
def dictKeys {K V : Type} (d : Dict K V) : List K := d.map Prod.fst

/-- Stable insertion into a key-sorted list (ascending first components). -/
def insSortedStep {V : Type} (p : Int × V) : List (Int × V) → List (Int × V)
  | [] => [p]
  | q :: t => if p.1 < q.1 then p :: q :: t else q :: insSortedStep p t

/-- Python `sorted(d.items())` for integer keys (keys are distinct). -/
def sortByKey {V : Type} (l : List (Int × V)) : List (Int × V) :=
  l.foldl (fun acc p => insSortedStep p acc) []

/-! ### Python string primitives (per code point) -/

/-- Index of the first occurrence of `sub` in `s`, if any. -/
def firstOcc (sub : List Char) : List Char → Option Nat
  | [] => if sub = [] then some 0 else none
  | c :: t =>
      if sub.isPrefixOf (c :: t) then some 0
      else (firstOcc sub t).map (· + 1)

/-- Python `s.find(sub)`: first index, `-1` when absent. -/
def pyFind (s sub : String) : Int :=
  match firstOcc sub.data s.data with
  | some n => (n : Int)
  | none => -1

/-- Python `s.find(sub, start)` for a non-negative in-range `start`. -/
def pyFindFrom (s sub : String) (start : Int) : Int :=
  match firstOcc sub.data (s.data.drop start.toNat) with
  | some n => (start.toNat : Int) + (n : Int)
  | none => -1

/-- Python slice `s[i:j]` for non-negative bounds (clamped at the ends). -/
def pySlice (s : String) (i j : Int) : String :=
  ⟨(s.data.take j.toNat).drop i.toNat⟩

/-- Python `sub in s`. -/
def pyContains (s sub : String) : Bool :=
  (firstOcc sub.data s.data).isSome

/-- Python `s.strip()` (ASCII whitespace, the only kind seen here). -/
def pyStrip (s : String) : String := s.trim

/-- Digits of a decimal literal, most significant first. -/
def digitsVal (cs : List Char) : Option Nat :=
  match cs with
  | [] => none
  | _ =>
      cs.foldl
        (fun acc c =>
          match acc with
          | none => none
          | some n => if c.isDigit then some (n * 10 + (c.toNat - 48)) else none)
        (some 0)

/-- Python `int(s)`: optional sign around decimal digits, whitespace trimmed;
`none` models the `ValueError` path. -/
def pyInt? (s : String) : Option Int :=
  match s.trim.data with
  | '-' :: rest => (digitsVal rest).map (fun n => -(n : Int))
  | '+' :: rest => (digitsVal rest).map (fun n => (n : Int))
  | rest => (digitsVal rest).map (fun n => (n : Int))

/-- Python `a or b` for an optional string `a` (both `None` and `""` are
falsy). -/
def pyOrStr (a : Option String) (b : String) : String :=
  match a with
  | none => b
  | some s => if s = "" then b else s

/-! ### Client state (`SimpleKFrameClient.__init__`) -/

/-- Value stored per output number in `all_outputs` / `aux_assignments`. -/
structure OutputData where
  name : String
  logsrc : String
deriving Repr, DecidableEq

/-- Value stored per id in `engineering_sources`. -/
structure EngData where
  id : String
  name : String
  type : String
  bnc : String
deriving Repr, DecidableEq

/-- Nested virtual-source descriptor of a logical source. -/
structure VSrcData where
  id : String
  stype : String
deriving Repr, DecidableEq

/-- Value stored per id in `logical_sources`. -/
structure LogData where
  id : String
  name : String
  type : String
  vsources : List VSrcData
deriving Repr, DecidableEq

/-- The mutable catalogs of `SimpleKFrameClient`.  `defaultdict` outer maps
are modelled by reading with default `[]`; the auto-insertion of an empty
inner map on read has no observable effect on any lookup and is dropped. -/
structure ClientState where
  current_on_air : Dict Int (Dict String String)
  source_names : Dict String String
  on_air_layers : Dict Int (Dict String (List String))
  layer_sources : Dict Int (Dict String (Dict String String))
  aux_assignments : Dict Int (Dict Int OutputData)
  all_outputs : Dict Int (Dict Int OutputData)
  engineering_sources : Dict String EngData
  logical_sources : Dict Int (Dict String LogData)
  engineering_sources_ready : Bool
  logical_suites_ready : List Int
deriving Repr, DecidableEq

/-- The empty state built by `__init__`. -/
def ClientState.init : ClientState :=
  ⟨[], [], [], [], [], [], [], [], false, []⟩

/-- Python `d[a][b] = v` on a `defaultdict` of dicts. -/
def dictInsert2 {K1 K2 V : Type} [DecidableEq K1] [DecidableEq K2]
    (d : Dict K1 (Dict K2 V)) (a : K1) (b : K2) (v : V) : Dict K1 (Dict K2 V) :=
  dictInsert d a (dictInsert (dictGetD d a []) b v)

/-- Python `d[a][b][c] = v` on a `defaultdict` of `defaultdict`s of dicts. -/
def dictInsert3 {K1 K2 K3 V : Type} [DecidableEq K1] [DecidableEq K2] [DecidableEq K3]
    (d : Dict K1 (Dict K2 (Dict K3 V))) (a : K1) (b : K2) (c : K3) (v : V) :
    Dict K1 (Dict K2 (Dict K3 V)) :=
  dictInsert d a (dictInsert2 (dictGetD d a []) b c v)

/-- Two-level lookup `d[a][b]`, absent levels reading as empty. -/
def dictGet2 {K1 K2 V : Type} [DecidableEq K1] [DecidableEq K2]
    (d : Dict K1 (Dict K2 V)) (a : K1) (b : K2) : Option V :=
  dictGet (dictGetD d a []) b

/-! ### Display combiner (`update_vpe_display`) -/

/-- The literal separator line between keyer and background groups. -/
def sepLine : String := "─────────────"

/-- Slot label for an active layer name; `none` models the `continue`
branches (cut layers and unrecognized layers are skipped). -/
def layerDisplayOf (layer : String) : Option String :=
  if layer.startsWith "Bkgd" then
    some (if layer = "BkgdA" then "BKGD A"
      else if layer = "BkgdB" then "BKGD B"
      else if layer = "BkgdC" then "BKGD C"
      else if layer = "BkgdD" then "BKGD D"
      else if layer = "BkgdU1" then "BKGD U1"
      else if layer = "BkgdU2" then "BKGD U2"
      else "BKGD " ++ (⟨layer.data.drop 4⟩ : String))
  else if pyContains layer.toLower "key" then
    (if pyContains layer "-fill" then
      some ("KEY " ++ ((layer.replace "key" "").replace "-fill" ""))
    else none)
  else none

/-- One display line for a layer: resolve its source id through
`layer_sources` (base slot name first, then the literal layer name) and
then through `source_names`. -/
def layerSourceText (source_names layer_sources : Dict String String)
    (layer layer_display : String) : String :=
  let sid0 := dictGet layer_sources ((layer.replace "-fill" "").replace "-cut" "")
  let sid1 := if pyOrStr sid0 "" = "" then dictGet layer_sources layer else sid0
  let source_id := pyOrStr sid1 ""
  if source_id ≠ "" ∧ dictMem source_names source_id then
    layer_display ++ ": " ++ dictGetD source_names source_id "" ++ " (" ++ source_id ++ ")"
  else if source_id ≠ "" then
    layer_display ++ ": Source " ++ source_id
  else
    layer_display ++ ": No Source"

/-- Sort key of a keyer line, `int(x.split('KEY ')[1].split(':')[0])`;
`none` models the `ValueError` that aborts the whole display update. -/
def keyerSortKey (x : String) : Option Int :=
  if pyContains x "KEY " then
    pyInt? ((((x.splitOn "KEY ").getD 1 "").splitOn ":").headD "")
  else some 0

/-- The body of `update_vpe_display` as a pure function: `none` means the
method returns without writing (`source_names` empty, an exception in the
sort key, or an empty combined result). -/
def combineDisplay (source_names : Dict String String)
    (active_layers : List String) (layer_sources : Dict String String) :
    Option String :=
  if source_names = [] then none
  else
    let parts := active_layers.foldl
      (fun (acc : List String × List String) layer =>
        match layerDisplayOf layer with
        | none => acc
        | some layer_display =>
          let source_text := layerSourceText source_names layer_sources layer layer_display
          if pyContains layer.toLower "key" then (acc.1 ++ [source_text], acc.2)
          else (acc.1, acc.2 ++ [source_text]))
      ([], [])
    let keyer_parts := parts.1
    let background_parts := parts.2
    match keyer_parts.mapM (fun x => (keyerSortKey x).map (fun k => (k, x))) with
    | none => none
    | some keyed =>
      let sorted_keyers := (sortByKey keyed).map Prod.snd
      let all_parts := sorted_keyers
        ++ (if keyer_parts ≠ [] ∧ background_parts ≠ [] then [sepLine] else [])
        ++ background_parts
      if all_parts ≠ [] then some (String.intercalate "\n" all_parts) else none

/-- `update_vpe_display(suite_index, vpe_name)`: recompute the combined
display for one suite/VPE and store it in `current_on_air`, or leave the
state untouched when the combiner yields nothing. -/
def update_vpe_display (st : ClientState) (suite_index : Int) (vpe_name : String) :
    ClientState :=
  let active_layers := dictGetD (dictGetD st.on_air_layers suite_index []) vpe_name []
  let layer_sources := dictGetD (dictGetD st.layer_sources suite_index []) vpe_name []
  match combineDisplay st.source_names active_layers layer_sources with
  | none => st
  | some txt =>
      { st with current_on_air := dictInsert2 st.current_on_air suite_index vpe_name txt }

/-- The refresh loop shared by `process_vpe_input_simple` and
`process_logical_source_map`: recompute every suite 0..3 / VPE whose
stored active-layer list is non-empty. -/
def refreshDisplays (st : ClientState) : ClientState :=
  ([0, 1, 2, 3] : List Int).foldl
    (fun st suite_idx =>
      (dictGetD st.on_air_layers suite_idx []).foldl
        (fun st p => if p.2 ≠ [] then update_vpe_display st suite_idx p.1 else st)
        st)
    st

/-! ### VPE input handler (`process_vpe_input_simple`) -/

/-- Suite extraction shared verbatim by the VPE input and VPE output
handlers; `Except.error` models the `ValueError` of `int()` which aborts
the handler through its `except` clause. -/
def extractSuiteSimple (xml_text : String) : Except Unit Int :=
  let suite_start := pyFind xml_text "Suite=\""
  if suite_start > 0 then
    let suite_start := suite_start + 7
    let suite_end := pyFindFrom xml_text "\"" suite_start
    if suite_end > 0 then
      match pyInt? (pySlice xml_text suite_start suite_end) with
      | some suite_num => Except.ok (suite_num - 1)
      | none => Except.error ()
    else Except.ok 0
  else Except.ok 0

/-- The six background layer slot names. -/
def background_layers : List String :=
  ["BkgdA", "BkgdB", "BkgdC", "BkgdD", "BkgdU1", "BkgdU2"]

/-- Store one named input slot of a VPE section into `layer_sources`. -/
def storeInputSlot (suite_index : Int) (vpe_name tag slot sect : String)
    (st : ClientState) : ClientState :=
  if pyContains sect tag then
    let slot_start := pyFind sect tag + (tag.length : Int)
    let slot_end := pyFindFrom sect "</Input>" slot_start
    if slot_end > slot_start then
      let v := pyStrip (pySlice sect slot_start slot_end)
      { st with layer_sources := dictInsert3 st.layer_sources suite_index vpe_name slot v }
    else st
  else st

/-- The `Acquired` attribute of a VPE section; missing or malformed reads
as not acquired. -/
def sectionAcquired (sect : String) : Bool :=
  let acquired_start := pyFind sect "Acquired=\""
  if acquired_start > 0 then
    let acquired_start := acquired_start + 10
    let acquired_end := pyFindFrom sect "\"" acquired_start
    if acquired_end > 0 then
      decide (pySlice sect acquired_start acquired_end = "True")
    else false
  else false

/-- Acquired branch: build the one-line `BKGD A` display from the section
and the source-name catalog. -/
def acquiredBkgdADisplay (st : ClientState) (suite_index : Int)
    (vpe_name sect : String) : ClientState :=
  let bkgd_start := pyFind sect "<Input Name=\"BkgdA\">"
  if bkgd_start > 0 then
    let bkgd_start := bkgd_start + 20
    let bkgd_end := pyFindFrom sect "</Input>" bkgd_start
    if bkgd_end > 0 then
      let source_id := pyStrip (pySlice sect bkgd_start bkgd_end)
      if source_id ≠ "" then
        let display_name :=
          match dictGet st.source_names source_id with
          | some nm => "BKGD A: " ++ nm ++ " (" ++ source_id ++ ")"
          | none => "BKGD A: Source " ++ source_id
        { st with current_on_air :=
            dictInsert2 st.current_on_air suite_index vpe_name display_name }
      else
        { st with current_on_air :=
            dictInsert2 st.current_on_air suite_index vpe_name "BKGD A: NO SOURCE" }
    else st
  else st

/-- Process one `<VPE Name="...` section of a VPE input document. -/
def processVpeInputSection (suite_index : Int) (st : ClientState)
    (sect : String) : ClientState :=
  let vpe_end := pyFind sect "\""
  if vpe_end > 0 then
    let vpe_name := pySlice sect 0 vpe_end
    let st := (List.range' 1 6).foldl
      (fun st key_num =>
        storeInputSlot suite_index vpe_name
          ("<Input Name=\"key" ++ toString key_num ++ "-fill\">")
          ("key" ++ toString key_num ++ "-fill") sect st)
      st
    let st := background_layers.foldl
      (fun st b =>
        storeInputSlot suite_index vpe_name ("<Input Name=\"" ++ b ++ "\">") b sect st)
      st
    if sectionAcquired sect then
      acquiredBkgdADisplay st suite_index vpe_name sect
    else
      { st with current_on_air :=
          dictInsert2 st.current_on_air suite_index vpe_name "Not Allocated" }
  else st

/-- `process_vpe_input_simple`: store layer/source assignments, set the
per-section on-air text, then refresh every VPE that already has active
layer data. -/
def process_vpe_input_simple (xml_text : String) (st : ClientState) : ClientState :=
  match extractSuiteSimple xml_text with
  | Except.error _ => st
  | Except.ok suite_index =>
    let vpe_sections := (xml_text.splitOn "<VPE Name=\"").drop 1
    let st := vpe_sections.foldl (processVpeInputSection suite_index) st
    refreshDisplays st

/-! ### VPE output handler (`process_vpe_output_layers`) -/

/-- Active layer names listed in a `PgmA` output block. -/
def pgmActiveLayers (pgm_section : String) : List String :=
  ((pgm_section.splitOn "<Input>").drop 1).foldl
    (fun acc input_data =>
      let input_end := pyFind input_data "</Input>"
      if input_end > 0 then acc ++ [pyStrip (pySlice input_data 0 input_end)]
      else acc)
    []

/-- Process one VPE section of a VPE output document. -/
def processVpeOutputSection (suite_index : Int) (st : ClientState)
    (sect : String) : ClientState :=
  let vpe_end := pyFind sect "\""
  if vpe_end > 0 then
    let vpe_name := pySlice sect 0 vpe_end
    if pyContains sect "Acquired=\"True\"" then
      let pgm_start := pyFind sect "<Output Name=\"PgmA\">"
      if pgm_start > 0 then
        let pgm_end := pyFindFrom sect "</Output>" pgm_start
        if pgm_end > 0 then
          let pgm_section := pySlice sect pgm_start pgm_end
          let active_layers := pgmActiveLayers pgm_section
          let oal := dictInsert2 st.on_air_layers suite_index vpe_name active_layers
          let st := { st with on_air_layers := oal }
          update_vpe_display st suite_index vpe_name
        else st
      else st
    else st
  else st

/-- `process_vpe_output_layers`: record the on-air layer list of every
acquired VPE and recompute its display. -/
def process_vpe_output_layers (xml_text : String) (st : ClientState) : ClientState :=
  match extractSuiteSimple xml_text with
  | Except.error _ => st
  | Except.ok suite_index =>
    ((xml_text.splitOn "<VPE Name=\"").drop 1).foldl
      (processVpeOutputSection suite_index) st

/-! ### Output tally handler (`process_output_tally`)

The three structured-markup handlers parse their document with
`ET.fromstring` at the top of the handler; a `ParseError` is caught there
and the handler returns before touching any state.  The parse step is an
external library call, so each handler takes its outcome as input:
`Except.error` is the `ParseError` path, `Except.ok` carries the parsed
document restricted to the fields the handler reads. -/

/-- An `<Output>` element: the four attributes the handler reads. -/
structure OutputElem where
  nameAttr : Option String
  suiteAttr : Option String
  outNumAttr : Option String
  logSrcAttr : Option String
deriving Repr, DecidableEq

/-- The `<OutputTally>` element: its `Type` child text and output list. -/
structure OutputTallyElem where
  typeText : Option String
  outputs : List OutputElem
deriving Repr, DecidableEq

/-- Parsed root for the output tally handler (`root.find('OutputTally')`). -/
structure OTRoot where
  tally : Option OutputTallyElem
deriving Repr, DecidableEq

/-- Per-output suite index: `int(suite_attr) - 1 if suite_attr else 0`,
with the `except` clause mapping a parse failure to 0. -/
def outputSuiteIndexOf (suite_attr : Option String) : Int :=
  match suite_attr with
  | none => 0
  | some s =>
      if s = "" then 0
      else match pyInt? s with
        | some n => n - 1
        | none => 0

/-- Per-output number: `int(out_num_attr) if out_num_attr else None`, a
parse failure also yielding `None`. -/
def outputOutNumOf (a : Option String) : Option Int :=
  match a with
  | none => none
  | some s => if s = "" then none else pyInt? s

/-- The collection loop of `process_output_tally`: build
(`updates_by_suite`, `outputs_by_suite`), dropping entries without a
parsable output number and indexing aux-named outputs separately. -/
def tallyBuckets (outputs : List OutputElem) :
    Dict Int (Dict Int OutputData) × Dict Int (Dict Int OutputData) :=
  outputs.foldl
    (fun acc o =>
      let name := pyStrip (pyOrStr o.nameAttr "")
      let suite_index := outputSuiteIndexOf o.suiteAttr
      match outputOutNumOf o.outNumAttr with
      | none => acc
      | some out_num =>
        let logsrc := pyStrip (pyOrStr o.logSrcAttr "")
        let data : OutputData := ⟨name, logsrc⟩
        let outs := dictInsert2 acc.2 suite_index out_num data
        let upds :=
          if name ≠ "" ∧ pyContains name.toLower "aux" then
            dictInsert2 acc.1 suite_index out_num data
          else acc.1
        (upds, outs))
    ([], [])

/-- `process_output_tally`: merge the collected outputs into `all_outputs`
and the aux-named subset into `aux_assignments`, replacing (per suite
appearing in the respective bucket) on a "full" tally and merging
otherwise, in ascending output-number order. -/
def process_output_tally (pr : Except Unit OTRoot) (st : ClientState) : ClientState :=
  match pr with
  | Except.error _ => st
  | Except.ok root =>
    match root.tally with
    | none => st
    | some tally =>
      let tally_type := pyOrStr tally.typeText ""
      let is_full := (pyStrip tally_type).toLower = "full"
      let buckets := tallyBuckets tally.outputs
      let updates_by_suite := buckets.1
      let outputs_by_suite := buckets.2
      let all_outputs := outputs_by_suite.foldl
        (fun all p =>
          let current := if is_full || !(dictMem all p.1) then [] else dictGetD all p.1 []
          let current := (sortByKey p.2).foldl (fun cur q => dictInsert cur q.1 q.2) current
          dictInsert all p.1 current)
        st.all_outputs
      let aux_assignments := updates_by_suite.foldl
        (fun aux p =>
          let suite_aux := if is_full then [] else dictGetD aux p.1 []
          let suite_aux := (sortByKey p.2).foldl (fun cur q => dictInsert cur q.1 q.2) suite_aux
          dictInsert aux p.1 suite_aux)
        st.aux_assignments
      { st with all_outputs := all_outputs, aux_assignments := aux_assignments }

/-! ### Logical source map handler (`process_logical_source_map`) -/

/-- A `<VSrc>` element: its text and `SType` attribute. -/
structure VSrcElem where
  text : Option String
  styAttr : Option String
deriving Repr, DecidableEq

/-- A `<LogSrc>` element: the fields the handler reads. -/
structure LogSrcElem where
  idAttr : Option String
  nameText : Option String
  nameAttr : Option String
  typeAttr : Option String
  vsrcs : List VSrcElem
deriving Repr, DecidableEq

/-- The `<LogicalSourceMap>` element. -/
structure LogicalMapElem where
  suiteAttrUpper : Option String
  suiteAttrLower : Option String
  typeText : Option String
  logsrcs : List LogSrcElem
deriving Repr, DecidableEq

/-- Parsed root for the logical source map handler. -/
structure LSRoot where
  logical : Option LogicalMapElem
deriving Repr, DecidableEq

/-- Suite index of a logical map: `max(0, int(suite_attr) - 1)` with
fallback attribute `'suite'`, default `'1'`, and 0 on a parse failure. -/
def logicalSuiteIndexOf (lm : LogicalMapElem) : Int :=
  let suite_attr := pyOrStr lm.suiteAttrUpper (pyOrStr lm.suiteAttrLower "1")
  match pyInt? suite_attr with
  | some n => max 0 (n - 1)
  | none => 0

/-- The entry-collection loop of `process_logical_source_map`. -/
def logicalEntries (logsrcs : List LogSrcElem) : Dict String LogData :=
  logsrcs.foldl
    (fun d ls =>
      let log_id := pyStrip (pyOrStr ls.idAttr "")
      let name := pyStrip (pyOrStr ls.nameText (pyOrStr ls.nameAttr ""))
      let src_type := pyStrip (pyOrStr ls.typeAttr "")
      let vsources := ls.vsrcs.map
        (fun vs => (⟨pyStrip (pyOrStr vs.text ""), pyStrip (pyOrStr vs.styAttr "")⟩ : VSrcData))
      dictInsert d log_id ⟨log_id, name, src_type, vsources⟩)
    []

/-- `process_logical_source_map`: replace or merge the suite's logical
catalog, maintain the ready set, purge display names of ids removed by a
full snapshot, learn names of the new entries, then refresh displays.
The Python pop loop iterates a set whose order is unspecified; the pops
commute, so a fixed order gives the same final map. -/
def process_logical_source_map (pr : Except Unit LSRoot) (st : ClientState) : ClientState :=
  match pr with
  | Except.error _ => st
  | Except.ok root =>
    match root.logical with
    | none => st
    | some logical =>
      let suite_index := logicalSuiteIndexOf logical
      let map_type := (pyStrip (pyOrStr logical.typeText "")).toLower
      let entries := logicalEntries logical.logsrcs
      let existing_entries := dictGetD st.logical_sources suite_index []
      let is_full := map_type = "full" ∨ map_type = "complete"
      let logical_map := if is_full then entries else dictInsertMany existing_entries entries
      let logical_sources := dictInsert st.logical_sources suite_index logical_map
      let ready :=
        if logical_map ≠ [] then
          (if st.logical_suites_ready.contains suite_index then st.logical_suites_ready
           else st.logical_suites_ready ++ [suite_index])
        else st.logical_suites_ready.filter (fun x => x != suite_index)
      let source_names :=
        if is_full then
          let removed_ids := (dictKeys existing_entries).filter (fun k => !(dictMem logical_map k))
          removed_ids.foldl dictErase st.source_names
        else st.source_names
      let source_names := entries.foldl
        (fun sn p => if p.2.name ≠ "" then dictInsert sn p.1 p.2.name else sn)
        source_names
      let st := { st with logical_sources := logical_sources,
                          logical_suites_ready := ready,
                          source_names := source_names }
      refreshDisplays st

/-! ### Engineering source map handler (`process_engineering_source_map`) -/

/-- An `<EngSrc>` element: the fields the handler reads.  `bncText` is the
`find('BNC_V')` outcome: outer `none` when the child is absent, inner the
text of the child. -/
structure EngSrcElem where
  idAttr : Option String
  nameAttr : Option String
  nameText : Option String
  typeAttr : Option String
  bncText : Option (Option String)
deriving Repr, DecidableEq

/-- The `<EngineeringSourceMap>` element. -/
structure EngMapElem where
  typeAttr : Option String
  srcs : List EngSrcElem
deriving Repr, DecidableEq

/-- Parsed root for the engineering source map handler. -/
structure ESRoot where
  eng_map : Option EngMapElem
deriving Repr, DecidableEq

/-- The entry-collection loop of `process_engineering_source_map`. -/
def engEntries (srcs : List EngSrcElem) : Dict String EngData :=
  srcs.foldl
    (fun d es =>
      let eng_id := pyStrip (pyOrStr es.idAttr "")
      let name := pyStrip (pyOrStr es.nameAttr (pyOrStr es.nameText ""))
      let src_type := pyStrip (pyOrStr es.typeAttr "")
      let bnc :=
        match es.bncText with
        | some (some t) => if t = "" then "" else pyStrip t
        | _ => ""
      dictInsert d eng_id ⟨eng_id, name, src_type, bnc⟩)
    []

/-- `process_engineering_source_map`: replace the global engineering
catalog on "full"/"complete", merge otherwise, and update the ready flag.
No display is recomputed here. -/
def process_engineering_source_map (pr : Except Unit ESRoot) (st : ClientState) :
    ClientState :=
  match pr with
  | Except.error _ => st
  | Except.ok root =>
    match root.eng_map with
    | none => st
    | some eng_map =>
      let map_type := (pyStrip (pyOrStr eng_map.typeAttr "")).toLower
      let entries := engEntries eng_map.srcs
      let existing := st.engineering_sources
      let is_full := map_type = "full" ∨ map_type = "complete"
      let merged := if is_full then entries else dictInsertMany existing entries
      { st with engineering_sources := merged,
                engineering_sources_ready := !merged.isEmpty }

/-! ### Update callbacks -/

/-- `register_update_callback`: ignore non-callables, append a callable
not already registered.  `is_callable` models the Python `callable` test
on the argument. -/
def register_update_callback {α : Type} [DecidableEq α]
    (is_callable : α → Bool) (cbs : List α) (cb : α) : List α :=
  if !is_callable cb then cbs
  else if cb ∈ cbs then cbs else cbs ++ [cb]

/-- `unregister_update_callback`: remove the first registration if any. -/
def unregister_update_callback {α : Type} [DecidableEq α]
    (cbs : List α) (cb : α) : List α :=
  if cb ∈ cbs then cbs.erase cb else cbs

/-- `_notify_update_callbacks`: the invocation sequence is a snapshot of
the registered list, each element called once in order. -/
def notify_update_callbacks {α : Type} (cbs : List α) : List α := cbs

/-! ### Heartbeat worker (`heartbeat_worker`, `send_heartbeat`) -/

/-- `RXTIME`, the 4-second response deadline. -/
def RESPONSE_TIMEOUT : ℚ := 4

/-- The response-deadline fields of the client; a deadline is armed when
`response_timer > 0`. -/
structure HeartbeatState where
  response_timer : ℚ
  response_timer_start : ℚ
deriving Repr, DecidableEq

/-- Observable actions of one heartbeat-loop iteration. -/
inductive HBEvent where
  | timeoutLogged
  | heartbeatSent
  | sendFailed
deriving Repr, DecidableEq

/-- One iteration of the `heartbeat_worker` loop body after the sleep,
with `running` true: check the armed deadline (log and clear on
expiration), then call `send_heartbeat`, which on success re-arms the
deadline at `now`.  `send_ok` models the socket send outcome. -/
def heartbeat_iteration (st : HeartbeatState) (now : ℚ) (send_ok : Bool) :
    HeartbeatState × List HBEvent :=
  let checked :=
    if st.response_timer > 0 then
      let elapsed := now - st.response_timer_start
      if elapsed ≥ st.response_timer then
        ({ st with response_timer := 0 }, [HBEvent.timeoutLogged])
      else (st, [])
    else (st, [])
  if send_ok then
    ((⟨RESPONSE_TIMEOUT, now⟩ : HeartbeatState), checked.2 ++ [HBEvent.heartbeatSent])
  else (checked.1, checked.2 ++ [HBEvent.sendFailed])

/-! ### Session lifecycle (`connect`, `stop`) -/

/-- The session flags of the client; `socket` is `none` before any
`connect`, `some true` while open, `some false` after a failed connect or
a close. -/
structure Session where
  connected : Bool
  running : Bool
  initial_requests_sent : Bool
  socket : Option Bool
deriving Repr, DecidableEq

/-- `connect()`: create the socket, then connect; on success set
`connected`, on failure (`ok = false`) the created socket stays unopened
and `connected` is not written. -/
def Session.connect (s : Session) (ok : Bool) : Session × Bool :=
  if ok then ({ s with socket := some true, connected := true }, true)
  else ({ s with socket := some false }, false)

/-- `stop()`: clear `running` and the initial-requests flag, close the
socket if one exists; `connected` is never written. -/
def Session.stop (s : Session) : Session :=
  { s with running := false, initial_requests_sent := false,
           socket := s.socket.map (fun _ => false) }

/-! ### Concrete fixtures used by the claim theorems -/

/-- A previously stored aux-named output entry (number 1 of suite 0). -/
def auxEntry : OutputData := ⟨"Aux 1", "9"⟩

/-- State holding one prior output and one prior aux entry for suite 0. -/
def stTally : ClientState :=
  { ClientState.init with
    all_outputs := [(0, [(1, auxEntry)])],
    aux_assignments := [(0, [(1, auxEntry)])] }

/-- Full tally for suite 1 whose single output is not aux-named. -/
def tallyFullNoAux : OTRoot :=
  ⟨some ⟨some "full", [⟨some "Out 10", some "1", some "10", some "3"⟩]⟩⟩

/-- Full tally for suite 1 whose single output is aux-named. -/
def tallyFullAux : OTRoot :=
  ⟨some ⟨some "full", [⟨some "Aux 2", some "1", some "2", some "4"⟩]⟩⟩

/-- Incremental tally for suite 1, one non-aux output. -/
def tallyIncNoAux : OTRoot :=
  ⟨some ⟨some "incremental", [⟨some "Out 10", some "1", some "10", some "3"⟩]⟩⟩

/-- Incremental tally for suite 1, one aux-named output. -/
def tallyIncAux : OTRoot :=
  ⟨some ⟨some "incremental", [⟨some "Aux 2", some "1", some "2", some "4"⟩]⟩⟩

/-- A VPE input document: suite 1, VPE ME1 not acquired, with a BkgdA
assignment to source 5. -/
def xmlNotAcquired : String :=
  "<ETP><VPEInputContribution Suite=\"1\"><VPE Name=\"ME1\" Acquired=\"False\"><Input Name=\"BkgdA\">5</Input></VPE></VPEInputContribution></ETP>"

/-- The same document with no `Acquired` attribute at all. -/
def xmlNoAcquiredAttr : String :=
  "<ETP><VPEInputContribution Suite=\"1\"><VPE Name=\"ME1\"><Input Name=\"BkgdA\">5</Input></VPE></VPEInputContribution></ETP>"

/-- State where source 5 has a known name and ME1 of suite 0 already has a
stored non-empty active-layer list. -/
def stLayersAndNames : ClientState :=
  { ClientState.init with
    source_names := [("5", "CAM1")],
    on_air_layers := [(0, [("ME1", ["BkgdA"])])] }

/-- State with a known source name but no stored active layers. -/
def stNamesOnly : ClientState :=
  { ClientState.init with source_names := [("5", "CAM1")] }

/-- State with stored active layers but an empty source-name catalog. -/
def stLayersOnly : ClientState :=
  { ClientState.init with on_air_layers := [(0, [("ME1", ["BkgdA"])])] }

/-- VPE input document carrying the out-of-range attribute `Suite="0"`. -/
def xmlSuiteZero : String := "<X Suite=\"0\"><VPE Name=\"A\">"

/-- VPE input document carrying the out-of-range attribute `Suite="7"`. -/
def xmlSuiteSeven : String := "<X Suite=\"7\"><VPE Name=\"A\">"

/-- VPE input document carrying the in-range attribute `Suite="2"`. -/
def xmlSuiteTwo : String := "<X Suite=\"2\"><VPE Name=\"A\">"

/-- VPE input document with an unparsable `Suite="x"` attribute. -/
def xmlSuiteBad : String := "<X Suite=\"x\"><VPE Name=\"A\">"

/-- VPE input document with no Suite attribute at all. -/
def xmlNoSuiteAttr : String := "<X><VPE Name=\"A\">"

/-- State whose stored display for suite 0 / ME1 shows an unresolved id
although a name for that id is (or becomes) known. -/
def stStaleDisplay : ClientState :=
  { ClientState.init with
    source_names := [("5", "CAM1")],
    on_air_layers := [(0, [("ME1", ["BkgdA"])])],
    layer_sources := [(0, [("ME1", [("BkgdA", "5")])])],
    current_on_air := [(0, [("ME1", "BKGD A: Source 5")])] }

/-- Like `stStaleDisplay` but the name for id 5 is not yet known. -/
def stStaleNoName : ClientState :=
  { ClientState.init with
    on_air_layers := [(0, [("ME1", ["BkgdA"])])],
    layer_sources := [(0, [("ME1", [("BkgdA", "5")])])],
    current_on_air := [(0, [("ME1", "BKGD A: Source 5")])] }

/-- A valid full engineering source map document. -/
def engDocFull : ESRoot :=
  ⟨some ⟨some "full", [⟨some "1", some "CamA", none, some "fixed", some (some "BNC 1")⟩]⟩⟩

/-- A full logical source map for suite 1 that names id 5 as CAM1. -/
def logDocNames5 : LSRoot :=
  ⟨some ⟨some "1", none, some "full", [⟨some "5", some "CAM1", none, none, []⟩]⟩⟩

/-- State used by the display-combiner claim: active layers
`key1-fill`/`BkgdA`, their source ids, and names for both ids. -/
def stCombine : ClientState :=
  { ClientState.init with
    source_names := [("5", "CAM1"), ("7", "CAM2")],
    on_air_layers := [(0, [("ME1", ["key1-fill", "BkgdA"])])],
    layer_sources := [(0, [("ME1", [("key1-fill", "7"), ("BkgdA", "5")])])] }

/-- Two engineering sources (ids 1 and 2) for a full snapshot. -/
def engSrcsFull : List EngSrcElem :=
  [⟨some "1", some "CamA", none, none, none⟩, ⟨some "2", some "CamB", none, none, none⟩]

/-- One engineering source (id 2, renamed) for an incremental update. -/
def engSrcsInc : List EngSrcElem :=
  [⟨some "2", some "CamB2", none, none, none⟩]

/-! ### Dictionary lemmas -/

lemma dictGet_insert_self {K V : Type} [DecidableEq K] (d : Dict K V) (k : K) (v : V) :
    dictGet (dictInsert d k v) k = some v := by
  induction d with
  | nil => simp [dictInsert, dictGet]
  | cons p t ih =>
      obtain ⟨k0, v0⟩ := p
      by_cases h : k0 = k
      · subst h; simp [dictInsert, dictGet]
      · simp [dictInsert, dictGet, h, ih]

lemma dictGet_insert_ne {K V : Type} [DecidableEq K] (d : Dict K V) (k k' : K) (v : V)
    (h : k' ≠ k) : dictGet (dictInsert d k' v) k = dictGet d k := by
  induction d with
  | nil => simp [dictInsert, dictGet, h]
  | cons p t ih =>
      obtain ⟨k0, v0⟩ := p
      by_cases h0 : k0 = k'
      · subst h0; simp [dictInsert, dictGet, h]
      · by_cases h1 : k0 = k
        · subst h1; simp [dictInsert, dictGet, h0, h]
        · simp [dictInsert, dictGet, h0, h1, ih]

lemma dictGet_none_of_not_mem {K V : Type} [DecidableEq K] {d : Dict K V} {k : K}
    (h : dictMem d k = false) : dictGet d k = none := by
  unfold dictMem at h
  cases hg : dictGet d k
  · rfl
  · rw [hg] at h; simp at h

lemma dictGetD_of_not_mem {K V : Type} [DecidableEq K] {d : Dict K V} {k : K} (v0 : V)
    (h : dictMem d k = false) : dictGetD d k v0 = v0 := by
  unfold dictGetD
  rw [dictGet_none_of_not_mem h]
  rfl

lemma dictInsertMany_cons {K V : Type} [DecidableEq K] (d : Dict K V) (p : K × V)
    (t : List (K × V)) :
    dictInsertMany d (p :: t) = dictInsertMany (dictInsert d p.1 p.2) t := rfl

lemma dictKeys_cons {K V : Type} (k0 : K) (v0 : V) (t : Dict K V) :
    dictKeys ((k0, v0) :: t) = k0 :: dictKeys t := rfl

lemma dictGet_insertMany_not_mem {K V : Type} [DecidableEq K] :
    ∀ (es : List (K × V)) (d : Dict K V) (k : K), k ∉ dictKeys es →
      dictGet (dictInsertMany d es) k = dictGet d k := by
  intro es
  induction es with
  | nil => intro d k _; rfl
  | cons p t ih =>
      intro d k h
      obtain ⟨k0, v0⟩ := p
      rw [dictKeys_cons, List.mem_cons] at h
      push_neg at h
      rw [dictInsertMany_cons]
      rw [ih _ _ h.2]
      exact dictGet_insert_ne d k k0 v0 (fun e => h.1 e.symm)

lemma mem_dictKeys_insert {K V : Type} [DecidableEq K] (d : Dict K V) (k a : K) (v : V) :
    a ∈ dictKeys (dictInsert d k v) ↔ a = k ∨ a ∈ dictKeys d := by
  induction d with
  | nil => simp [dictInsert, dictKeys]
  | cons p t ih =>
      obtain ⟨k0, v0⟩ := p
      simp only [dictInsert]
      by_cases h0 : k0 = k
      · rw [if_pos h0]
        subst h0
        simp only [dictKeys_cons, List.mem_cons]
        tauto
      · rw [if_neg h0]
        simp only [dictKeys_cons, List.mem_cons] at ih ⊢
        rw [ih]
        tauto

lemma dictKeys_nodup_insert {K V : Type} [DecidableEq K] (d : Dict K V) (k : K) (v : V)
    (h : (dictKeys d).Nodup) : (dictKeys (dictInsert d k v)).Nodup := by
  induction d with
  | nil => simp [dictInsert, dictKeys]
  | cons p t ih =>
      obtain ⟨k0, v0⟩ := p
      rw [dictKeys_cons, List.nodup_cons] at h
      simp only [dictInsert]
      by_cases h0 : k0 = k
      · rw [if_pos h0]
        rw [dictKeys_cons, List.nodup_cons]
        exact h
      · rw [if_neg h0]
        rw [dictKeys_cons, List.nodup_cons]
        refine ⟨?_, ih h.2⟩
        rw [mem_dictKeys_insert]
        push_neg
        exact ⟨h0, h.1⟩

lemma dictGet_insertMany_mem {K V : Type} [DecidableEq K] :
    ∀ (es : List (K × V)) (d : Dict K V) (k : K),
      (dictKeys es).Nodup → k ∈ dictKeys es →
      dictGet (dictInsertMany d es) k = dictGet es k := by
  intro es
  induction es with
  | nil => intro d k _ hm; simp [dictKeys] at hm
  | cons p t ih =>
      intro d k hnd hm
      obtain ⟨k0, v0⟩ := p
      rw [dictKeys_cons, List.nodup_cons] at hnd
      rw [dictKeys_cons, List.mem_cons] at hm
      rw [dictInsertMany_cons]
      by_cases hk : k0 = k
      · subst hk
        rw [dictGet_insertMany_not_mem t _ _ hnd.1]
        rw [dictGet_insert_self]
        simp [dictGet]
      · have hmt : k ∈ dictKeys t := by
          rcases hm with h1 | h2
          · exact absurd h1.symm hk
          · exact h2
        rw [ih _ _ hnd.2 hmt]
        simp [dictGet, hk]

lemma dictKeys_nodup_foldl_insert {K V β : Type} [DecidableEq K]
    (F : Dict K V → β → K) (G : Dict K V → β → V) :
    ∀ (l : List β) (d : Dict K V), (dictKeys d).Nodup →
      (dictKeys (l.foldl (fun d b => dictInsert d (F d b) (G d b)) d)).Nodup := by
  intro l
  induction l with
  | nil => intro d h; exact h
  | cons b t ih => intro d h; exact ih _ (dictKeys_nodup_insert _ _ _ h)

lemma engEntries_keys_nodup (srcs : List EngSrcElem) :
    (dictKeys (engEntries srcs)).Nodup := by
  exact dictKeys_nodup_foldl_insert
    (fun _ es => pyStrip (pyOrStr es.idAttr ""))
    (fun _ es =>
      ({ id := pyStrip (pyOrStr es.idAttr "")
         name := pyStrip (pyOrStr es.nameAttr (pyOrStr es.nameText ""))
         type := pyStrip (pyOrStr es.typeAttr "")
         bnc :=
           match es.bncText with
           | some (some t) => if t = "" then "" else pyStrip t
           | _ => "" } : EngData))
    srcs [] (by simp [dictKeys])

/-! ### Handler reduction lemmas -/

lemma eng_full_reduces (st : ClientState) (srcs : List EngSrcElem) :
    (process_engineering_source_map (Except.ok ⟨some ⟨some "full", srcs⟩⟩) st).engineering_sources
      = engEntries srcs := by
  simp only [process_engineering_source_map]
  norm_num
  exact fun h _ => absurd (by with_unfolding_all rfl) h

lemma eng_incremental_reduces (st : ClientState) (srcs : List EngSrcElem) :
    (process_engineering_source_map (Except.ok ⟨some ⟨some "incremental", srcs⟩⟩) st).engineering_sources
      = dictInsertMany st.engineering_sources (engEntries srcs) := by
  simp only [process_engineering_source_map]
  norm_num
  intro h
  have h1 : (pyStrip (pyOrStr (some "incremental") "")).toLower = "incremental" := by
    with_unfolding_all rfl
  rw [h1] at h
  rcases h with h | h <;> simp at h

/-! ### Claims -/

/-- Claim C1, counterexample.  A Type="full" OutputTally carrying a single
non-aux output (number 10, suite 1) replaces the suite-0 output catalog as
the claim states, but the suite-0 aux catalog keeps its previously stored
entry for output number 1, which the document never mentions: a full tally
does not clear aux_assignments of a suite that has no aux-named entry in
the document, contradicting the claim that all prior entries of S are
cleared in both catalogs. -/
theorem C1_counterexample :
    (process_output_tally (Except.ok tallyFullNoAux) stTally).all_outputs
        = [(0, [(10, ⟨"Out 10", "3"⟩)])]
      ∧ (process_output_tally (Except.ok tallyFullNoAux) stTally).aux_assignments
        = [(0, [(1, auxEntry)])] := by
  exact ⟨by with_unfolding_all rfl, by with_unfolding_all rfl⟩

/-- Claim C1, amended.  On a "full" OutputTally: the output catalog of
every suite carrying an entry in the document is replaced by exactly the
entries of the document; the aux catalog is replaced only for suites that
carry at least one aux-named entry, and is left untouched otherwise.  On
an incremental tally, entries are merged and previously stored,
unmentioned output numbers stay intact in both catalogs. -/
theorem C1_amended (st : ClientState) :
    ((process_output_tally (Except.ok tallyFullNoAux) st).all_outputs
        = dictInsert st.all_outputs 0 [(10, ⟨"Out 10", "3"⟩)]
      ∧ (process_output_tally (Except.ok tallyFullNoAux) st).aux_assignments
        = st.aux_assignments)
    ∧ ((process_output_tally (Except.ok tallyFullAux) st).aux_assignments
        = dictInsert st.aux_assignments 0 [(2, ⟨"Aux 2", "4"⟩)])
    ∧ ((process_output_tally (Except.ok tallyIncNoAux) st).all_outputs
        = dictInsert st.all_outputs 0
            (dictInsert (dictGetD st.all_outputs 0 []) 10 ⟨"Out 10", "3"⟩)
      ∧ (process_output_tally (Except.ok tallyIncNoAux) st).aux_assignments
        = st.aux_assignments)
    ∧ ((process_output_tally (Except.ok tallyIncAux) st).aux_assignments
        = dictInsert st.aux_assignments 0
            (dictInsert (dictGetD st.aux_assignments 0 []) 2 ⟨"Aux 2", "4"⟩)) := by
  refine ⟨⟨by with_unfolding_all rfl, by with_unfolding_all rfl⟩,
          by with_unfolding_all rfl, ⟨?_, by with_unfolding_all rfl⟩,
          by with_unfolding_all rfl⟩
  have hred : (process_output_tally (Except.ok tallyIncNoAux) st).all_outputs
      = dictInsert st.all_outputs 0
          (dictInsert (if !(dictMem st.all_outputs 0) then [] else dictGetD st.all_outputs 0 [])
            10 ⟨"Out 10", "3"⟩) := by
    with_unfolding_all rfl
  rw [hred]
  cases h : dictMem st.all_outputs 0
  · rw [dictGetD_of_not_mem _ h]
    simp [h]
  · simp [h]

set_option maxRecDepth 8000 in
set_option maxHeartbeats 4000000 in
/-- Claim C2, counterexample.  The document marks ME1 of suite 1 as
Acquired="False", and the section processing does write "Not Allocated";
but the refresh pass at the end of process_vpe_input_simple recomputes the
display from the stored non-empty active-layer list and the source-name
catalog, so the handler finishes with combined display text, not with
"Not Allocated" — refuting "regardless of any previously stored
active-layer or source-name state". -/
theorem C2_counterexample :
    dictGet2 (process_vpe_input_simple xmlNotAcquired stLayersAndNames).current_on_air 0 "ME1"
        = some "BKGD A: CAM1 (5)"
      ∧ pyContains xmlNotAcquired "Acquired=\"False\"" = true
      ∧ ("BKGD A: CAM1 (5)" : String) ≠ "Not Allocated" := by
  refine ⟨?_, by with_unfolding_all rfl, by simp⟩
  with_unfolding_all rfl

set_option maxRecDepth 8000 in
set_option maxHeartbeats 4000000 in
/-- Claim C2, amended.  A VPE section whose Acquired attribute is "False"
or missing yields on-air text "Not Allocated" regardless of BkgdA content
in the section, provided the final refresh pass does not overwrite it:
when the VPE has no stored active layers, or the source-name catalog is
empty, the text is still "Not Allocated" when the handler finishes. -/
theorem C2_amended :
    dictGet2 (process_vpe_input_simple xmlNotAcquired stNamesOnly).current_on_air 0 "ME1"
        = some "Not Allocated"
      ∧ dictGet2 (process_vpe_input_simple xmlNoAcquiredAttr stNamesOnly).current_on_air 0 "ME1"
        = some "Not Allocated"
      ∧ dictGet2 (process_vpe_input_simple xmlNotAcquired stLayersOnly).current_on_air 0 "ME1"
        = some "Not Allocated" := by
  exact ⟨by with_unfolding_all rfl, by with_unfolding_all rfl, by with_unfolding_all rfl⟩

/-- Claim C3, counterexample.  Suite="0" in a VPE input document derives
suite index -1, not 0: values outside 0..3 are not clamped there.  The
same holds in the output tally handler, and Suite="7" in the logical map
handler gives 6, not 0: out-of-range indices above 3 are never clamped
anywhere. -/
theorem C3_counterexample :
    extractSuiteSimple xmlSuiteZero = Except.ok (-1)
      ∧ outputSuiteIndexOf (some "0") = -1
      ∧ ((-1 : Int) ≠ 0)
      ∧ logicalSuiteIndexOf ⟨some "7", none, none, []⟩ = 6
      ∧ ((6 : Int) ≠ 0) := by
  exact ⟨by with_unfolding_all rfl, by with_unfolding_all rfl, by simp,
         by with_unfolding_all rfl, by simp⟩

set_option maxRecDepth 8000 in
set_option maxHeartbeats 4000000 in
/-- Claim C3, amended.  Every handler derives suite index as the 1-based
suite number minus one.  Only the logical-source-map handler clamps, and
it clamps only negative results up to 0 (its derived index is never
negative); the VPE input/output handlers and the output tally handler use
the unclamped value, so Suite="0" gives -1 there, and Suite="7" gives 6
in every handler.  A missing Suite attribute falls back to index 0 in
every handler, and an unparsable value falls back to 0 in the output
tally and logical map handlers; in the VPE input and VPE output handlers
an unparsable value instead raises ValueError, which the handler-wide
except clause catches, so the document is dropped without any state
change rather than processed under index 0. -/
theorem C3_amended :
    extractSuiteSimple xmlSuiteTwo = Except.ok 1
      ∧ extractSuiteSimple xmlSuiteZero = Except.ok (-1)
      ∧ extractSuiteSimple xmlSuiteSeven = Except.ok 6
      ∧ outputSuiteIndexOf (some "2") = 1
      ∧ outputSuiteIndexOf (some "0") = -1
      ∧ outputSuiteIndexOf none = 0
      ∧ outputSuiteIndexOf (some "x") = 0
      ∧ logicalSuiteIndexOf ⟨some "0", none, none, []⟩ = 0
      ∧ logicalSuiteIndexOf ⟨some "7", none, none, []⟩ = 6
      ∧ logicalSuiteIndexOf ⟨some "x", none, none, []⟩ = 0
      ∧ logicalSuiteIndexOf ⟨none, none, none, []⟩ = 0
      ∧ extractSuiteSimple xmlNoSuiteAttr = Except.ok 0
      ∧ extractSuiteSimple xmlSuiteBad = Except.error ()
      ∧ (∀ st : ClientState, process_vpe_input_simple xmlSuiteBad st = st)
      ∧ (∀ st : ClientState, process_vpe_output_layers xmlSuiteBad st = st)
      ∧ (∀ lm : LogicalMapElem, 0 ≤ logicalSuiteIndexOf lm) := by
  refine ⟨by with_unfolding_all rfl, by with_unfolding_all rfl, by with_unfolding_all rfl,
          by with_unfolding_all rfl, by with_unfolding_all rfl, by with_unfolding_all rfl,
          by with_unfolding_all rfl, by with_unfolding_all rfl, by with_unfolding_all rfl,
          by with_unfolding_all rfl, by with_unfolding_all rfl, by with_unfolding_all rfl,
          by with_unfolding_all rfl,
          fun st => by with_unfolding_all rfl, fun st => by with_unfolding_all rfl, ?_⟩
  intro lm
  unfold logicalSuiteIndexOf
  cases h : pyInt? (pyOrStr lm.suiteAttrUpper (pyOrStr lm.suiteAttrLower "1"))
  · simp [h]
  · simp [h]

/-- Claim C4, counterexample.  With a stale display "BKGD A: Source 5"
stored for suite 0 / ME1 and the name of id 5 known, running the
engineering source map handler leaves the display unchanged, although the
display combiner run on the same state would produce the resolved text:
the engineering handler performs no display recomputation at all. -/
theorem C4_counterexample :
    dictGet2 (process_engineering_source_map (Except.ok engDocFull) stStaleDisplay).current_on_air 0 "ME1"
        = some "BKGD A: Source 5"
      ∧ dictGet2 (update_vpe_display stStaleDisplay 0 "ME1").current_on_air 0 "ME1"
        = some "BKGD A: CAM1 (5)"
      ∧ ("BKGD A: Source 5" : String) ≠ "BKGD A: CAM1 (5)" := by
  exact ⟨by with_unfolding_all rfl, by with_unfolding_all rfl, by simp⟩

set_option maxRecDepth 8000 in
set_option maxHeartbeats 4000000 in
/-- Claim C4, amended.  After the logical source handler runs, suite/VPE
pairs of suites 0..3 with a non-empty stored active-layer list are
recomputed via the display combiner, so a newly learned source name
replaces previously unresolved-id display text; the engineering source
handler, by contrast, never touches the display state (current_on_air is
unchanged for every input). -/
theorem C4_amended :
    (∀ (pr : Except Unit ESRoot) (st : ClientState),
        (process_engineering_source_map pr st).current_on_air = st.current_on_air)
      ∧ dictGet2 (process_logical_source_map (Except.ok logDocNames5) stStaleNoName).current_on_air 0 "ME1"
        = some "BKGD A: CAM1 (5)" := by
  constructor
  · intro pr st
    cases pr with
    | error e => rfl
    | ok root =>
        obtain ⟨em⟩ := root
        cases em <;> rfl
  · with_unfolding_all rfl

/-- Claim C5, counterexample.  With a 4-second deadline armed at time 0
and the iteration running at time 10, the deadline has elapsed and the
timeout is logged with the deadline cleared — but the worker still sends a
heartbeat in that same iteration (the send is unconditional in the loop
body), refuting "does not send a heartbeat in that iteration". -/
theorem C5_counterexample :
    (heartbeat_iteration ⟨4, 0⟩ 10 true).2 = [HBEvent.timeoutLogged, HBEvent.heartbeatSent]
      ∧ ((⟨4, 0⟩ : HeartbeatState).response_timer > 0)
      ∧ ((10 : ℚ) - (⟨4, 0⟩ : HeartbeatState).response_timer_start
          ≥ (⟨4, 0⟩ : HeartbeatState).response_timer)
      ∧ HBEvent.heartbeatSent ∈ (heartbeat_iteration ⟨4, 0⟩ 10 true).2 := by
  refine ⟨?_, by norm_num, by norm_num, ?_⟩
  · norm_num [heartbeat_iteration]
  · norm_num [heartbeat_iteration]

/-- Claim C5, amended.  In each iteration (with the send succeeding): if a
deadline is armed and has elapsed, the worker logs a timeout and clears
the deadline, and then still sends a heartbeat and arms a new 4-second
deadline; otherwise it only sends the heartbeat and arms the deadline.
The heartbeat is sent in every iteration, timeout or not. -/
theorem C5_amended (st : HeartbeatState) (now : ℚ) :
    (st.response_timer > 0 → now - st.response_timer_start ≥ st.response_timer →
        heartbeat_iteration st now true
          = (⟨RESPONSE_TIMEOUT, now⟩, [HBEvent.timeoutLogged, HBEvent.heartbeatSent]))
      ∧ (¬ (st.response_timer > 0 ∧ now - st.response_timer_start ≥ st.response_timer) →
        heartbeat_iteration st now true
          = (⟨RESPONSE_TIMEOUT, now⟩, [HBEvent.heartbeatSent])) := by
  constructor
  · intro h1 h2
    simp [heartbeat_iteration, h1, h2]
  · intro h
    by_cases h1 : st.response_timer > 0
    · have h2 : ¬ (now - st.response_timer_start ≥ st.response_timer) :=
        fun h2 => h ⟨h1, h2⟩
      simp [heartbeat_iteration, h1, h2]
    · simp [heartbeat_iteration, h1]

/-- Claim C5, witness for the amended theorem at concrete inputs: an
armed elapsed deadline (4 armed at 0, now 10) and an unarmed one. -/
theorem C5_amended_witness :
    heartbeat_iteration ⟨4, 0⟩ 10 true
        = (⟨RESPONSE_TIMEOUT, 10⟩, [HBEvent.timeoutLogged, HBEvent.heartbeatSent])
      ∧ heartbeat_iteration ⟨0, 0⟩ 10 true
        = (⟨RESPONSE_TIMEOUT, 10⟩, [HBEvent.heartbeatSent]) := by
  constructor
  · exact (C5_amended ⟨4, 0⟩ 10).1 (by norm_num) (by norm_num)
  · exact (C5_amended ⟨0, 0⟩ 10).2 (by norm_num)

/-- Claim C6: after a "full" EngineeringSourceMap and then an incremental
one, every id absent from the incremental document keeps the value it had
after the full snapshot, and every id present in both documents carries
the value of the incremental document. -/
theorem C6_eng_full_then_incremental (st : ClientState)
    (fullSrcs incSrcs : List EngSrcElem) (id : String) :
    (id ∉ dictKeys (engEntries incSrcs) →
        dictGet (process_engineering_source_map
            (Except.ok ⟨some ⟨some "incremental", incSrcs⟩⟩)
            (process_engineering_source_map
              (Except.ok ⟨some ⟨some "full", fullSrcs⟩⟩) st)).engineering_sources id
          = dictGet (process_engineering_source_map
              (Except.ok ⟨some ⟨some "full", fullSrcs⟩⟩) st).engineering_sources id)
      ∧ (id ∈ dictKeys (engEntries fullSrcs) → id ∈ dictKeys (engEntries incSrcs) →
        dictGet (process_engineering_source_map
            (Except.ok ⟨some ⟨some "incremental", incSrcs⟩⟩)
            (process_engineering_source_map
              (Except.ok ⟨some ⟨some "full", fullSrcs⟩⟩) st)).engineering_sources id
          = dictGet (engEntries incSrcs) id) := by
  constructor
  · intro hno
    rw [eng_incremental_reduces]
    exact dictGet_insertMany_not_mem _ _ _ hno
  · intro _ hmem
    rw [eng_incremental_reduces]
    exact dictGet_insertMany_mem _ _ _ (engEntries_keys_nodup incSrcs) hmem

/-- Claim C6, witness: a full snapshot with ids 1 and 2 followed by an
incremental update renaming id 2; id 1 is unchanged and id 2 carries the
incremental value. -/
theorem C6_eng_full_then_incremental_witness :
    dictGet (process_engineering_source_map
        (Except.ok ⟨some ⟨some "incremental", engSrcsInc⟩⟩)
        (process_engineering_source_map
          (Except.ok ⟨some ⟨some "full", engSrcsFull⟩⟩) ClientState.init)).engineering_sources "1"
      = dictGet (process_engineering_source_map
          (Except.ok ⟨some ⟨some "full", engSrcsFull⟩⟩) ClientState.init).engineering_sources "1"
    ∧ dictGet (process_engineering_source_map
        (Except.ok ⟨some ⟨some "incremental", engSrcsInc⟩⟩)
        (process_engineering_source_map
          (Except.ok ⟨some ⟨some "full", engSrcsFull⟩⟩) ClientState.init)).engineering_sources "2"
      = dictGet (engEntries engSrcsInc) "2" := by
  have hinc : dictKeys (engEntries engSrcsInc) = ["2"] := by with_unfolding_all rfl
  have hfull : dictKeys (engEntries engSrcsFull) = ["1", "2"] := by with_unfolding_all rfl
  constructor
  · exact (C6_eng_full_then_incremental ClientState.init engSrcsFull engSrcsInc "1").1
      (by rw [hinc]; simp)
  · exact (C6_eng_full_then_incremental ClientState.init engSrcsFull engSrcsInc "2").2
      (by rw [hfull]; simp) (by rw [hinc]; simp)

set_option maxRecDepth 8000 in
set_option maxHeartbeats 4000000 in
/-- Claim C7: with active layers key1-fill and BkgdA, their source ids 7
and 5, and names CAM2 and CAM1, the display combiner stores exactly the
keyer line, the separator line, and the background line, joined by
newlines. -/
theorem C7_display_combiner :
    dictGet2 (update_vpe_display stCombine 0 "ME1").current_on_air 0 "ME1"
      = some "KEY 1: CAM2 (7)\n─────────────\nBKGD A: CAM1 (5)" := by
  with_unfolding_all rfl

/-- Claim C8: each structured-markup handler (output tally, logical source
map, engineering source map) catches the parse error at its boundary and
returns with the whole client state exactly as it was; nothing is mutated
and nothing propagates to the dispatcher. -/
theorem C8_parse_error_preserves_state (st : ClientState) (e1 e2 e3 : Unit) :
    process_output_tally (Except.error e1) st = st
      ∧ process_logical_source_map (Except.error e2) st = st
      ∧ process_engineering_source_map (Except.error e3) st = st :=
  ⟨rfl, rfl, rfl⟩

/-- Claim C9: on a connected session, stop() clears running, resets the
initial-requests flag and closes the socket, but never writes the
connected flag, which still reads true afterwards; connect success is
what set it. -/
theorem C9_stop_preserves_connected (s : Session) (h : s.connected = true) :
    (Session.stop s).connected = true
      ∧ (Session.stop s).running = false
      ∧ (Session.stop s).initial_requests_sent = false
      ∧ (Session.stop s).socket = s.socket.map (fun _ => false)
      ∧ ((Session.connect s true).1).connected = true :=
  ⟨h, rfl, rfl, rfl, rfl⟩

/-- Claim C9, witness at a concrete connected session. -/
theorem C9_stop_preserves_connected_witness :
    (Session.stop ⟨true, true, true, some true⟩).connected = true
      ∧ (Session.stop ⟨true, true, true, some true⟩).running = false
      ∧ (Session.stop ⟨true, true, true, some true⟩).initial_requests_sent = false
      ∧ (Session.stop ⟨true, true, true, some true⟩).socket
          = (some true).map (fun _ => false)
      ∧ ((Session.connect ⟨true, true, true, some true⟩ true).1).connected = true :=
  C9_stop_preserves_connected ⟨true, true, true, some true⟩ rfl

/-- Claim C10: registering a non-callable leaves the callback list
unchanged; registering the same callable twice is idempotent and stores it
exactly once, so the notification snapshot invokes it once; unregistering
removes it, and unregistering an unknown callback is a no-op. -/
theorem C10_callbacks {α : Type} [DecidableEq α]
    (is_callable : α → Bool) (cbs : List α) (cb : α) :
    (is_callable cb = false → register_update_callback is_callable cbs cb = cbs)
      ∧ (register_update_callback is_callable (register_update_callback is_callable cbs cb) cb
          = register_update_callback is_callable cbs cb)
      ∧ (is_callable cb = true → cb ∉ cbs →
          (notify_update_callbacks (register_update_callback is_callable
              (register_update_callback is_callable cbs cb) cb)).count cb = 1)
      ∧ (is_callable cb = true → cb ∉ cbs →
          unregister_update_callback (register_update_callback is_callable cbs cb) cb = cbs)
      ∧ (cb ∉ cbs → unregister_update_callback cbs cb = cbs) := by
  refine ⟨?_, ?_, ?_, ?_, ?_⟩
  · intro h
    simp [register_update_callback, h]
  · by_cases hc : is_callable cb
    · by_cases hm : cb ∈ cbs
      · simp [register_update_callback, hc, hm]
      · simp [register_update_callback, hc, hm]
    · simp [register_update_callback, hc]
  · intro h1 h2
    simp [register_update_callback, notify_update_callbacks, h1, h2,
      List.count_append, List.count_eq_zero_of_not_mem h2]
  · intro h1 h2
    simp [register_update_callback, unregister_update_callback, h1, h2,
      List.erase_append_right _ h2]
  · intro h
    simp [unregister_update_callback, h]

/-- Claim C10, witness on a concrete callback list over Nat ids. -/
theorem C10_callbacks_witness :
    register_update_callback (fun _ : Nat => false) [] 0 = []
      ∧ (notify_update_callbacks (register_update_callback (fun _ : Nat => true)
          (register_update_callback (fun _ : Nat => true) [] 0) 0)).count 0 = 1
      ∧ unregister_update_callback (register_update_callback (fun _ : Nat => true) [] 0) 0 = []
      ∧ unregister_update_callback ([] : List Nat) 0 = [] := by
  refine ⟨(C10_callbacks (fun _ : Nat => false) [] 0).1 rfl,
          (C10_callbacks (fun _ : Nat => true) [] 0).2.2.1 rfl (by simp),
          (C10_callbacks (fun _ : Nat => true) [] 0).2.2.2.1 rfl (by simp),
          (C10_callbacks (fun _ : Nat => true) [] 0).2.2.2.2 (by simp)⟩

end KFrame

